import Mathlib

/-!
Verification development for the admission-inquiry assistant frontend.

The React components are embedded as pure Lean functions: each event
handler becomes a state-transition function taking the component state,
the props (`sessionId`, `isConnected`) and an explicit fetch outcome, and
returning the new state together with the request body it posted (if any).
JavaScript strings are Lean `String`s, JavaScript numbers carried in
analytics payloads are `ℚ` (with a separate `JSNum` type where the code
can produce NaN/Infinity), dates are abstracted as integer day numbers,
and JavaScript objects used as dictionaries are association lists.
-/

/-- Outcome of a `fetch` call: a parsed JSON body on an ok response, a
non-ok HTTP status, or a network failure (rejected promise). -/
inductive FetchOutcome (α : Type) where
  | success : α → FetchOutcome α
  | httpError : ℕ → FetchOutcome α
  | networkError : FetchOutcome α
deriving Repr, DecidableEq

def FetchOutcome.isSuccess {α : Type} : FetchOutcome α → Bool
  | .success _ => true
  | _ => false

/-- JavaScript `String.prototype.trim`: strip leading and trailing
whitespace. -/
def jsTrim (s : String) : String :=
  String.mk (((s.data.dropWhile Char.isWhitespace).reverse.dropWhile
    Char.isWhitespace).reverse)

/-- JavaScript `Math.round` on a rational: half-up rounding, computed on
the numerator and denominator so that it evaluates by kernel reduction. -/
def jsRound (q : ℚ) : ℤ := (q + mkRat 1 2).num / ((q + mkRat 1 2).den : ℤ)

/-- JavaScript truthiness of a nullable string (`null`, `undefined` and
`""` are falsy). -/
def optTruthy : Option String → Bool
  | none => false
  | some s => s != ""

/-- Stable insertion of `x` into a list sorted descending by `key`
(mirrors the effect of `Array.prototype.sort` with comparator
`(a, b) => key(b) - key(a)`, which is stable). -/
def insertByDesc {α : Type} (key : α → ℤ) (x : α) : List α → List α
  | [] => [x]
  | y :: ys => if key y < key x then x :: y :: ys else y :: insertByDesc key x ys

/-- Stable sort, descending by `key`. -/
def sortByDesc {α : Type} (key : α → ℤ) : List α → List α
  | [] => []
  | x :: xs => insertByDesc key x (sortByDesc key xs)

/-- A JavaScript `\w` word character. -/
def isWordChar (c : Char) : Bool := c.isAlpha || c.isDigit || c == '_'

/-- JavaScript `s.replace(underscore, space)` with a plain string pattern:
only the first occurrence is replaced. -/
def replaceFirstUnderscore : List Char → List Char
  | [] => []
  | c :: cs => if c == '_' then ' ' :: cs else c :: replaceFirstUnderscore cs

/-- JavaScript `s.replace(wordStartPattern, l => l.toUpperCase())`:
uppercase every character that starts a word (the boolean argument records
whether the previous character was a word character). -/
def capitalizeWordStarts : Bool → List Char → List Char
  | _, [] => []
  | prevWord, c :: cs =>
      (if !prevWord && isWordChar c then c.toUpper else c) ::
        capitalizeWordStarts (isWordChar c) cs

/-- Display name of an intent in the analytics dashboard. -/
def displayIntentName (s : String) : String :=
  String.mk (capitalizeWordStarts false (replaceFirstUnderscore s.data))

/-- `channel.charAt(0).toUpperCase() + channel.slice(1)`. -/
def capitalizeFirst (s : String) : String :=
  match s.data with
  | [] => ""
  | c :: cs => String.mk (c.toUpper :: cs)

/-- A JavaScript number that may be NaN or Infinity: `num` is a finite
integer value (all such values in this development are results of
`Math.round`). -/
inductive JSNum where
  | num : ℤ → JSNum
  | nan : JSNum
  | inf : JSNum
deriving Repr, DecidableEq

def JSNum.isFinite : JSNum → Bool
  | .num _ => true
  | _ => false

/- ## Chat interface (ChatInterface component) -/

inductive MsgType where
  | user : MsgType
  | bot : MsgType
deriving Repr, DecidableEq

/-- One entry of the `messages` state list. Fields that the code leaves
`undefined` on some messages are `Option`/`Bool` with `none`/`false` for
absent. -/
structure Message where
  id : String
  type : MsgType
  content : String
  intent : Option String
  confidence : Option ℚ
  isError : Bool
deriving Repr, DecidableEq

/-- The component state of `ChatInterface` that the chat turn touches. -/
structure ChatState where
  messages : List Message
  inputText : String
  isLoading : Bool
  isTyping : Bool
deriving Repr, DecidableEq

/-- Body posted to `/api/chat`. -/
structure ChatRequest where
  message : String
  session_id : String
deriving Repr, DecidableEq

/-- Parsed JSON of an ok `/api/chat` response, as consumed by the code. -/
structure ChatResponse where
  response : String
  intent : String
  confidence : ℚ
deriving Repr, DecidableEq

/-- The initial welcome message installed on mount. -/
def welcomeMessage : Message :=
  { id := "welcome"
    type := MsgType.bot
    content := "Hello! I\x27m your AI admission assistant. I can help you with information about admission requirements, deadlines, tuition, programs, and more. What would you like to know?"
    intent := some ("greeting")
    confidence := some 1
    isError := false }

/-- Chat state after mount. -/
def initChat : ChatState :=
  { messages := [welcomeMessage], inputText := "", isLoading := false, isTyping := false }

/-- The error reply text installed on a failed chat turn. -/
def errorReplyText : String :=
  "I\x27m sorry, I\x27m having trouble connecting right now. Please try again or contact our admissions office directly at (555) 123-4567."

/-- `sendMessage` of `ChatInterface`. `now` stands for `Date.now()`; the
guard mirrors `if (!inputText.trim() || isLoading || !isConnected) return`.
Returns the final state once the turn settles (the typing-delay timeout
included) and the body posted to `/api/chat`, or `none` when the guard
returned early. -/
def sendMessage (st : ChatState) (isConnected : Bool) (sessionId : String)
    (now : ℕ) (outcome : FetchOutcome ChatResponse) : ChatState × Option ChatRequest :=
  if jsTrim st.inputText = "" ∨ st.isLoading = true ∨ isConnected = false then
    (st, none)
  else
    let userMessage : Message :=
      { id := toString now, type := MsgType.user, content := jsTrim st.inputText,
        intent := none, confidence := none, isError := false }
    let st1 : ChatState :=
      { messages := st.messages ++ [userMessage], inputText := "",
        isLoading := true, isTyping := true }
    let req : ChatRequest := { message := userMessage.content, session_id := sessionId }
    match outcome with
    | FetchOutcome.success data =>
        let botMessage : Message :=
          { id := toString (now + 1), type := MsgType.bot, content := data.response,
            intent := some data.intent, confidence := some data.confidence,
            isError := false }
        ({ st1 with
            messages := st1.messages ++ [botMessage]
            isTyping := false
            isLoading := false }, some req)
    | _ =>
        let errorMessage : Message :=
          { id := toString (now + 1), type := MsgType.bot, content := errorReplyText,
            intent := none, confidence := none, isError := true }
        ({ st1 with
            messages := st1.messages ++ [errorMessage]
            isTyping := false
            isLoading := false }, some req)

/-- The `disabled` attribute of the send button:
`!inputText.trim() || isLoading || !isConnected`. -/
def sendButtonDisabled (st : ChatState) (isConnected : Bool) : Bool :=
  (jsTrim st.inputText == "") || st.isLoading || !isConnected

/-- The two feedback kinds the thumbs-up/down buttons pass to
`sendFeedback`. -/
inductive FeedbackType where
  | positive : FeedbackType
  | negative : FeedbackType
deriving Repr, DecidableEq

def FeedbackType.toStr : FeedbackType → String
  | .positive => "positive"
  | .negative => "negative"

/-- Body posted to `/api/feedback`. -/
structure FeedbackRequest where
  session_id : String
  message_id : String
  feedback_type : String
deriving Repr, DecidableEq

/-- `sendFeedback` of `ChatInterface`: posts the feedback body; the
response is never read and no state is updated, whatever the outcome. -/
def sendFeedback (st : ChatState) (sessionId messageId : String)
    (ft : FeedbackType) (_outcome : FetchOutcome Unit) : ChatState × FeedbackRequest :=
  (st, { session_id := sessionId, message_id := messageId, feedback_type := ft.toStr })

/-- Whether the feedback buttons are rendered for a message:
`message.type === 'bot' && !message.isError`. -/
def feedbackOffered (m : Message) : Bool :=
  (m.type == MsgType.bot) && !m.isError

/-- Body posted to `/api/followup`. -/
structure FollowUpRequest where
  email : String
  name : String
  session_id : String
  inquiry_type : String
deriving Repr, DecidableEq

/-- The `sendFollowUp` handler of the follow-up modal: validates that the
email and name inputs are non-empty (`if (!email || !name) ... return`)
before posting. Returns the posted body, or `none` when validation
failed. -/
def sendFollowUp (email name sessionId : String) : Option FollowUpRequest :=
  if email = "" ∨ name = "" then none
  else some { email := email, name := name, session_id := sessionId,
              inquiry_type := "general" }

/- ## Voice interface (VoiceInterface component) -/

/-- Parsed JSON of an ok `/api/voice` response, as consumed by the code.
`audio_url` is nullable/omittable. -/
structure VoiceData where
  transcript : String
  response : String
  audio_url : Option String
  intent : String
  confidence : ℚ
deriving Repr, DecidableEq

/-- The multipart body posted to `/api/voice` (the audio blob itself is
abstracted away; only the `session_id` field matters to the claims). -/
structure VoiceRequest where
  session_id : String
deriving Repr, DecidableEq

/-- One entry of the `conversations` state list. -/
structure Conversation where
  id : String
  transcript : String
  response : String
  audioUrl : Option String
  intent : String
  confidence : ℚ
  recordingDuration : ℕ
deriving Repr, DecidableEq

/-- The component state of `VoiceInterface` that `processRecording`
touches. -/
structure VoiceState where
  conversations : List Conversation
  isProcessing : Bool
  recordingTime : ℕ
  isMuted : Bool
deriving Repr, DecidableEq

/-- Result of one voice turn: final state, the posted body (if any), and
the audio url handed to `playAudio` (if playback was attempted). -/
structure VoiceStepResult where
  state : VoiceState
  request : Option VoiceRequest
  played : Option String
deriving Repr, DecidableEq

/-- `processRecording` of `VoiceInterface`. `numChunks` is
`audioChunksRef.current.length`; `now` stands for `Date.now()`. Playback
is attempted only when `!isMuted && data.audio_url` is truthy. -/
def processRecording (st : VoiceState) (sessionId : String) (now : ℕ)
    (numChunks : ℕ) (outcome : FetchOutcome VoiceData) : VoiceStepResult :=
  if numChunks = 0 then
    { state := st, request := none, played := none }
  else
    let req : VoiceRequest := { session_id := sessionId }
    match outcome with
    | FetchOutcome.success data =>
        let conversation : Conversation :=
          { id := toString now, transcript := data.transcript,
            response := data.response, audioUrl := data.audio_url,
            intent := data.intent, confidence := data.confidence,
            recordingDuration := st.recordingTime }
        { state :=
            { st with
                conversations := st.conversations ++ [conversation]
                recordingTime := 0
                isProcessing := false }
          request := some req
          played := if !st.isMuted && optTruthy data.audio_url
                    then data.audio_url else none }
    | _ =>
        { state := { st with isProcessing := false }
          request := some req
          played := none }

/-- The transcript text rendered for a conversation entry:
`conversation.transcript || 'Could not transcribe audio'`. -/
def displayTranscript (c : Conversation) : String :=
  if c.transcript = "" then "Could not transcribe audio" else c.transcript

/- ## App shell (App component) -/

inductive Tab where
  | chat : Tab
  | voice : Tab
  | analytics : Tab
deriving Repr, DecidableEq

inductive SystemStatus where
  | checking : SystemStatus
  | healthy : SystemStatus
  | error : SystemStatus
deriving Repr, DecidableEq

/-- The client-generated opaque session id:
`session_` + `Date.now()` + `_` + a random suffix. -/
def mkSessionId (now : ℕ) (rand : String) : String :=
  "session_" ++ toString now ++ "_" ++ rand

/-- The state of the `App` component. `sessionId` is produced once by the
`useState` initializer and has no setter. -/
structure AppState where
  activeTab : Tab
  sessionId : String
  isConnected : Bool
  systemStatus : SystemStatus
deriving Repr, DecidableEq

/-- App state right after mount, before the health check resolves. -/
def initApp (now : ℕ) (rand : String) : AppState :=
  { activeTab := Tab.chat, sessionId := mkSessionId now rand,
    isConnected := false, systemStatus := SystemStatus.checking }

/-- `checkSystemHealth` of `App`: an ok `/api/health` response marks the
system connected; a non-ok status or a network failure marks it
disconnected. -/
def checkSystemHealth (st : AppState) (outcome : FetchOutcome Unit) : AppState :=
  match outcome with
  | FetchOutcome.success _ =>
      { st with isConnected := true, systemStatus := SystemStatus.healthy }
  | _ =>
      { st with isConnected := false, systemStatus := SystemStatus.error }

/-- Switching tabs only changes `activeTab`. -/
def setActiveTab (st : AppState) (t : Tab) : AppState :=
  { st with activeTab := t }

/- ## Analytics dashboard (Analytics component) -/

/-- The rollup object consumed from `/api/analytics` (`data.analytics`).
Dictionaries are association lists in object-key order; dates are
abstracted as integer day numbers (the `yyyy-MM-dd` key of a day is a
bijective rendering of its day number). -/
structure AnalyticsData where
  total_interactions : ℕ
  unique_sessions : ℕ
  intent_distribution : List (String × ℕ)
  channel_distribution : List (String × ℕ)
  daily_interactions : List (ℤ × ℕ)
  average_confidence : List (String × ℚ)
  average_processing_time : ℚ
  entity_distribution : List (String × ℕ)
deriving Repr, DecidableEq

/-- Query string of the analytics fetch: `/api/analytics?days=timeRange`. -/
structure AnalyticsRequest where
  days : ℤ
deriving Repr, DecidableEq

/-- The request issued by `fetchAnalytics` for a selected time range. -/
def fetchAnalytics (timeRange : ℤ) : AnalyticsRequest :=
  { days := timeRange }

/-- The four options of the time-range selector. -/
def timeRangeOptions : List ℤ := [7, 14, 30, 90]

/-- One slice of the intent pie chart / topics table. -/
structure IntentEntry where
  name : String
  value : ℕ
  percentage : JSNum
deriving Repr, DecidableEq

/-- `Math.round((count / total_interactions) * 100)` with JavaScript
division semantics: dividing by a zero total gives NaN (for a zero count)
or Infinity, both of which `Math.round` passes through. -/
def intentPercentage (count total : ℕ) : JSNum :=
  if total = 0 then (if count = 0 then JSNum.nan else JSNum.inf)
  else JSNum.num (jsRound (((count : ℚ) / (total : ℚ)) * 100))

/-- `processIntentData`: map the intent distribution to chart entries and
sort them descending by count. -/
def processIntentData (a : Option AnalyticsData) : List IntentEntry :=
  match a with
  | none => []
  | some d =>
      sortByDesc (fun e => (e.value : ℤ))
        (d.intent_distribution.map (fun p =>
          { name := displayIntentName p.1, value := p.2,
            percentage := intentPercentage p.2 d.total_interactions }))

/-- One bar of the channel chart. -/
structure ChannelEntry where
  name : String
  value : ℕ
deriving Repr, DecidableEq

/-- `processChannelData`: map the channel distribution to chart entries. -/
def processChannelData (a : Option AnalyticsData) : List ChannelEntry :=
  match a with
  | none => []
  | some d =>
      d.channel_distribution.map (fun p =>
        { name := capitalizeFirst p.1, value := p.2 })

/-- One point of the daily-interactions line chart. -/
structure DailyEntry where
  date : ℤ
  interactions : ℕ
deriving Repr, DecidableEq

/-- The loop body of `processDailyData`: `for (i = n-1; i >= 0; i--)`
pushes the entry for the day `i` days before `today`, reading the count
from the dictionary and defaulting to 0. -/
def dailyEntriesGo (m : List (ℤ × ℕ)) (today : ℤ) : ℕ → List DailyEntry
  | 0 => []
  | k + 1 =>
      { date := today - (k : ℤ),
        interactions := ((m.lookup (today - (k : ℤ))).getD 0) } ::
        dailyEntriesGo m today k

/-- `processDailyData`: one entry per day of the selected range, oldest
first. -/
def processDailyData (a : Option AnalyticsData) (timeRange : ℕ) (today : ℤ) :
    List DailyEntry :=
  match a with
  | none => []
  | some d => dailyEntriesGo d.daily_interactions today timeRange

/-- One bar of the per-intent confidence chart. -/
structure ConfidenceEntry where
  intent : String
  confidence : ℤ
deriving Repr, DecidableEq

/-- `processConfidenceData`: map the per-intent mean confidence to
percentage bars and sort them descending. -/
def processConfidenceData (a : Option AnalyticsData) : List ConfidenceEntry :=
  match a with
  | none => []
  | some d =>
      sortByDesc (fun e => e.confidence)
        (d.average_confidence.map (fun p =>
          { intent := displayIntentName p.1, confidence := jsRound (p.2 * 100) }))

/-- The entity-distribution panel: entries sorted descending by count,
top 6 shown. -/
def processEntityData (d : AnalyticsData) : List (String × ℕ) :=
  (sortByDesc (fun p => (p.2 : ℤ)) d.entity_distribution).take 6

/-- The three numeric metric cards of the dashboard. -/
structure MetricCards where
  totalInteractions : ℕ
  uniqueSessions : ℕ
  averageProcessingTime : ℚ
deriving Repr, DecidableEq

/-- The values rendered on the metric cards. -/
def metricCards (d : AnalyticsData) : MetricCards :=
  { totalInteractions := d.total_interactions,
    uniqueSessions := d.unique_sessions,
    averageProcessingTime := d.average_processing_time }

/- ## Witness fixtures -/

/-- Concrete analytics payload used by witnesses. -/
def sampleAnalytics : AnalyticsData :=
  { total_interactions := 4
    unique_sessions := 2
    intent_distribution := [("greeting", 1), ("tuition_fees", 3)]
    channel_distribution := [("text", 3), ("voice", 1)]
    daily_interactions := [(10, 2), (8, 4)]
    average_confidence := [("greeting", mkRat 9 10)]
    average_processing_time := mkRat 1 2
    entity_distribution := [("program_name", 2)] }

/-- Concrete chat state used by witnesses. -/
def sampleChatState : ChatState :=
  { messages := [welcomeMessage], inputText := "Hi", isLoading := false,
    isTyping := false }

/-- Concrete ok chat reply used by witnesses. -/
def sampleChatReply : ChatResponse :=
  { response := "Hello there", intent := "greeting", confidence := 1 }

/-- Concrete voice state used by witnesses. -/
def sampleVoiceState : VoiceState :=
  { conversations := [], isProcessing := true, recordingTime := 3,
    isMuted := false }

/-- Concrete voice reply with a failed transcription and no audio, used by
witnesses. -/
def sampleVoiceData : VoiceData :=
  { transcript := "", response := "Please repeat that", audio_url := none,
    intent := "unknown", confidence := mkRat 1 4 }

/- ## Helper lemmas -/

theorem jsRound_eq_round (q : ℚ) : jsRound q = round q := by
  have h : (mkRat 1 2 : ℚ) = 1 / 2 := by
    rw [Rat.mkRat_eq_div]; norm_num
  rw [round_eq, jsRound, h, Rat.floor_def]

theorem insertByDesc_perm {α : Type} (key : α → ℤ) (x : α) (l : List α) :
    List.Perm (insertByDesc key x l) (x :: l) := by
  induction l with
  | nil => simp [insertByDesc]
  | cons y ys ih =>
      simp only [insertByDesc]
      split
      · exact List.Perm.refl _
      · exact (ih.cons y).trans (List.Perm.swap x y ys)

theorem sortByDesc_perm {α : Type} (key : α → ℤ) (l : List α) :
    List.Perm (sortByDesc key l) l := by
  induction l with
  | nil => simp [sortByDesc]
  | cons x xs ih =>
      exact (insertByDesc_perm key x (sortByDesc key xs)).trans (ih.cons x)

theorem insertByDesc_pairwise {α : Type} (key : α → ℤ) (x : α) (l : List α)
    (h : l.Pairwise (fun a b => key b ≤ key a)) :
    (insertByDesc key x l).Pairwise (fun a b => key b ≤ key a) := by
  induction l with
  | nil => simp [insertByDesc]
  | cons y ys ih =>
      rcases List.pairwise_cons.mp h with ⟨hy, hys⟩
      simp only [insertByDesc]
      split
      next hlt =>
        refine List.pairwise_cons.mpr ⟨?_, h⟩
        intro b hb
        rcases List.mem_cons.mp hb with rfl | hb
        · exact le_of_lt hlt
        · exact le_trans (hy b hb) (le_of_lt hlt)
      next hge =>
        refine List.pairwise_cons.mpr ⟨?_, ih hys⟩
        intro b hb
        have hb' := (insertByDesc_perm key x ys).mem_iff.mp hb
        rcases List.mem_cons.mp hb' with rfl | hb'
        · exact le_of_not_lt hge
        · exact hy b hb'

theorem sortByDesc_pairwise {α : Type} (key : α → ℤ) (l : List α) :
    (sortByDesc key l).Pairwise (fun a b => key b ≤ key a) := by
  induction l with
  | nil => simp [sortByDesc]
  | cons x xs ih => exact insertByDesc_pairwise key x _ ih

theorem dailyEntriesGo_length (m : List (ℤ × ℕ)) (today : ℤ) (n : ℕ) :
    (dailyEntriesGo m today n).length = n := by
  induction n with
  | zero => rfl
  | succ k ih => simp [dailyEntriesGo, ih]

theorem dailyEntriesGo_getElem (m : List (ℤ × ℕ)) (today : ℤ) (n j : ℕ)
    (hj : j < n) :
    (dailyEntriesGo m today n)[j]? =
      some { date := today - ((n - 1 - j : ℕ) : ℤ),
             interactions := ((m.lookup (today - ((n - 1 - j : ℕ) : ℤ))).getD 0) } := by
  induction n generalizing j with
  | zero => omega
  | succ k ih =>
      cases j with
      | zero =>
          have hk : k + 1 - 1 - 0 = k := by omega
          simp [dailyEntriesGo, hk]
      | succ i =>
          have hi : i < k := by omega
          have harith : k + 1 - 1 - (i + 1) = k - 1 - i := by omega
          rw [harith]
          simpa [dailyEntriesGo] using ih i hi

/- ## Claim theorems -/

/-- C1: For every chat turn the client sends (non-empty trimmed input, not
already loading, connected), the body posted to the chat endpoint is
exactly the record with fields `message` and `session_id`, carrying the
trimmed input and the session id; and the bot message produced from a
successful reply takes its content, intent and confidence exactly from
the `response`, `intent` and `confidence` fields of the reply. -/
theorem chat_request_shape_and_reply_fields (st : ChatState) (sid : String)
    (now : ℕ) (data : ChatResponse)
    (hin : jsTrim st.inputText ≠ "") (hload : st.isLoading = false) :
    (sendMessage st true sid now (FetchOutcome.success data)).2 =
      some { message := jsTrim st.inputText, session_id := sid } ∧
    (sendMessage st true sid now (FetchOutcome.success data)).1.messages =
      st.messages ++
        [{ id := toString now, type := MsgType.user,
           content := jsTrim st.inputText, intent := none, confidence := none,
           isError := false },
         { id := toString (now + 1), type := MsgType.bot,
           content := data.response, intent := some data.intent,
           confidence := some data.confidence, isError := false }] := by
  constructor
  · simp [sendMessage, hin, hload]
  · simp [sendMessage, hin, hload]

/-- Witness for C1 at a concrete state and reply. -/
theorem chat_request_shape_and_reply_fields_witness :
    (sendMessage sampleChatState true ("s1") 5
        (FetchOutcome.success sampleChatReply)).2 =
      some { message := jsTrim (sampleChatState.inputText), session_id := "s1" } :=
  (chat_request_shape_and_reply_fields sampleChatState ("s1") 5 sampleChatReply
    (by decide) rfl).1

/-- C3: a mount-time or failed health check leaves `isConnected` false,
and while `isConnected` is false the chat send operation issues no
request and leaves the state (hence the message list) unchanged, and the
send control is disabled. -/
theorem health_gate_blocks_send (a : AppState) (code tn : ℕ) (rand : String)
    (st : ChatState) (sid : String) (now : ℕ) (o : FetchOutcome ChatResponse) :
    (initApp tn rand).isConnected = false ∧
    (checkSystemHealth a (FetchOutcome.httpError code)).isConnected = false ∧
    (checkSystemHealth a FetchOutcome.networkError).isConnected = false ∧
    sendMessage st false sid now o = (st, none) ∧
    sendButtonDisabled st false = true := by
  refine ⟨rfl, rfl, rfl, ?_, ?_⟩
  · simp [sendMessage]
  · simp [sendButtonDisabled]

set_option maxRecDepth 8000 in
/-- C4: a chat turn whose fetch fails or returns a non-ok status still
appends a well-formed bot message whose text is the error reply directing
the user to the admissions phone number, and resets the loading and
typing flags to false. -/
theorem chat_error_turn (st : ChatState) (sid : String) (now : ℕ)
    (o : FetchOutcome ChatResponse)
    (hin : jsTrim st.inputText ≠ "") (hload : st.isLoading = false)
    (herr : o.isSuccess = false) :
    (sendMessage st true sid now o).1 =
      { messages := st.messages ++
          [{ id := toString now, type := MsgType.user,
             content := jsTrim st.inputText, intent := none, confidence := none,
             isError := false },
           { id := toString (now + 1), type := MsgType.bot,
             content := errorReplyText, intent := none, confidence := none,
             isError := true }],
        inputText := "", isLoading := false, isTyping := false } ∧
    ("(555) 123-4567").data <:+: errorReplyText.data := by
  constructor
  · cases o with
    | success data => simp [FetchOutcome.isSuccess] at herr
    | httpError code => simp [sendMessage, hin, hload]
    | networkError => simp [sendMessage, hin, hload]
  · decide

/-- Witness for C4 at a concrete state and a network failure. -/
theorem chat_error_turn_witness :
    (sendMessage sampleChatState true ("s1") 7 FetchOutcome.networkError).1 =
      { messages := sampleChatState.messages ++
          [{ id := toString 7, type := MsgType.user,
             content := jsTrim (sampleChatState.inputText), intent := none,
             confidence := none, isError := false },
           { id := toString (7 + 1), type := MsgType.bot,
             content := errorReplyText, intent := none, confidence := none,
             isError := true }],
        inputText := "", isLoading := false, isTyping := false } :=
  (chat_error_turn sampleChatState ("s1") 7 FetchOutcome.networkError
    (by decide) rfl rfl).1

/-- C5: the follow-up handler posts nothing when the email or the name
input is empty, and otherwise posts exactly the record with fields
`email`, `name`, `session_id` and `inquiry_type`. -/
theorem followup_validation_gate (email name sid : String) :
    ((email = "" ∨ name = "") → sendFollowUp email name sid = none) ∧
    (email ≠ "" → name ≠ "" →
      sendFollowUp email name sid =
        some { email := email, name := name, session_id := sid,
               inquiry_type := "general" }) := by
  constructor
  · intro h
    simp [sendFollowUp, h]
  · intro h1 h2
    simp [sendFollowUp, h1, h2]

/-- Witness for C5: an empty email is rejected; non-empty fields are
posted as given. -/
theorem followup_validation_gate_witness :
    sendFollowUp ("") ("x") ("s") = none ∧
    sendFollowUp ("Ada") ("Lovelace") ("s") =
      some { email := "Ada", name := "Lovelace", session_id := "s",
             inquiry_type := "general" } :=
  ⟨(followup_validation_gate ("") ("x") ("s")).1 (Or.inl rfl),
   (followup_validation_gate ("Ada") ("Lovelace") ("s")).2 (by decide) (by decide)⟩

/-- C7: every feedback submission posts exactly the record with fields
`session_id`, `message_id` and `feedback_type`, with `feedback_type`
drawn from positive/negative; the feedback buttons are rendered exactly
on non-error bot messages; and the reply never alters the chat state. -/
theorem feedback_request_shape (st : ChatState) (sid mid : String)
    (ft : FeedbackType) (o : FetchOutcome Unit) :
    (sendFeedback st sid mid ft o).1 = st ∧
    (sendFeedback st sid mid ft o).2 =
      { session_id := sid, message_id := mid, feedback_type := ft.toStr } ∧
    (ft.toStr = "positive" ∨ ft.toStr = "negative") ∧
    (∀ m : Message, feedbackOffered m = true ↔
      (m.type = MsgType.bot ∧ m.isError = false)) := by
  refine ⟨rfl, rfl, ?_, ?_⟩
  · cases ft
    · exact Or.inl rfl
    · exact Or.inr rfl
  · intro m
    simp [feedbackOffered, Bool.and_eq_true, beq_iff_eq, Bool.not_eq_true']

/-- Witness for C7: a concrete submission leaves the state unchanged, and
the welcome message (a non-error bot message) offers feedback. -/
theorem feedback_request_shape_witness :
    (sendFeedback initChat ("sess") ("m1") FeedbackType.positive
        (FetchOutcome.success ())).1 = initChat ∧
    feedbackOffered welcomeMessage = true :=
  ⟨(feedback_request_shape initChat ("sess") ("m1") FeedbackType.positive
      (FetchOutcome.success ())).1,
   ((feedback_request_shape initChat ("sess") ("m1") FeedbackType.positive
      (FetchOutcome.success ())).2.2.2 welcomeMessage).mpr ⟨rfl, rfl⟩⟩

/-- Any chat request posted by `sendMessage` carries the trimmed input and
the given session id. -/
theorem sendMessage_request (st : ChatState) (conn : Bool) (sid : String)
    (now : ℕ) (o : FetchOutcome ChatResponse) :
    (sendMessage st conn sid now o).2 = none ∨
    (sendMessage st conn sid now o).2 =
      some { message := jsTrim st.inputText, session_id := sid } := by
  unfold sendMessage
  split
  · exact Or.inl rfl
  · cases o <;> exact Or.inr rfl

/-- Any voice request posted by `processRecording` carries the given
session id. -/
theorem processRecording_request (st : VoiceState) (sid : String)
    (now k : ℕ) (o : FetchOutcome VoiceData) :
    (processRecording st sid now k o).request = none ∨
    (processRecording st sid now k o).request = some { session_id := sid } := by
  unfold processRecording
  split
  · exact Or.inl rfl
  · cases o <;> exact Or.inr rfl

/-- Any follow-up request posted by `sendFollowUp` carries the given
fields and session id. -/
theorem sendFollowUp_cases (email name sid : String) :
    sendFollowUp email name sid = none ∨
    sendFollowUp email name sid =
      some { email := email, name := name, session_id := sid,
             inquiry_type := "general" } := by
  unfold sendFollowUp
  split
  · exact Or.inl rfl
  · exact Or.inr rfl

/-- C2: a voice turn whose ok reply arrives with `audio_url` null or
omitted still appends a well-formed conversation entry carrying the
response text; the rendered transcript falls back to the fixed text when
the transcript is empty (and is the transcript otherwise); no audio
playback is attempted; and the turn terminates with the processing flag
reset. -/
theorem voice_turn_without_audio (st : VoiceState) (sid : String)
    (now k : ℕ) (data : VoiceData)
    (hk : k ≠ 0) (haudio : data.audio_url = none) :
    (processRecording st sid now k (FetchOutcome.success data)).state.conversations =
      st.conversations ++
        [{ id := toString now, transcript := data.transcript,
           response := data.response, audioUrl := none, intent := data.intent,
           confidence := data.confidence,
           recordingDuration := st.recordingTime }] ∧
    (processRecording st sid now k (FetchOutcome.success data)).played = none ∧
    (processRecording st sid now k
      (FetchOutcome.success data)).state.isProcessing = false ∧
    (data.transcript = "" →
      displayTranscript
        { id := toString now, transcript := data.transcript,
          response := data.response, audioUrl := none, intent := data.intent,
          confidence := data.confidence,
          recordingDuration := st.recordingTime } =
        "Could not transcribe audio") ∧
    (data.transcript ≠ "" →
      displayTranscript
        { id := toString now, transcript := data.transcript,
          response := data.response, audioUrl := none, intent := data.intent,
          confidence := data.confidence,
          recordingDuration := st.recordingTime } = data.transcript) := by
  refine ⟨?_, ?_, ?_, ?_, ?_⟩
  · simp [processRecording, hk, haudio]
  · simp [processRecording, hk, haudio, optTruthy]
  · simp [processRecording, hk]
  · intro h
    simp [displayTranscript, h]
  · intro h
    simp [displayTranscript, h]

/-- Witness for C2 at a concrete voice turn with empty transcript and no
audio url. -/
theorem voice_turn_without_audio_witness :
    (processRecording sampleVoiceState ("s1") 9 2
        (FetchOutcome.success sampleVoiceData)).played = none ∧
    (processRecording sampleVoiceState ("s1") 9 2
        (FetchOutcome.success sampleVoiceData)).state.isProcessing = false ∧
    displayTranscript
      { id := toString 9, transcript := sampleVoiceData.transcript,
        response := sampleVoiceData.response, audioUrl := none,
        intent := sampleVoiceData.intent,
        confidence := sampleVoiceData.confidence,
        recordingDuration := sampleVoiceState.recordingTime } =
      "Could not transcribe audio" := by
  have h := voice_turn_without_audio sampleVoiceState ("s1") 9 2 sampleVoiceData
    (by decide) rfl
  exact ⟨h.2.1, h.2.2.1, h.2.2.2.1 rfl⟩

/-- C6: the analytics query carries the integer `days` parameter equal to
the selected time range, and the client consumes the rollup: the metric
cards carry the total interaction count, unique session count and mean
processing time; the channel chart preserves the per-channel counts; the
intent chart preserves the per-intent counts; the confidence chart
carries the rounded per-intent mean confidences; and the entity panel
shows entries of the per-entity-type counts. -/
theorem analytics_query_and_rollup (tr : ℤ) (d : AnalyticsData) :
    (fetchAnalytics tr).days = tr ∧
    metricCards d = { totalInteractions := d.total_interactions,
                      uniqueSessions := d.unique_sessions,
                      averageProcessingTime := d.average_processing_time } ∧
    (processChannelData (some d)).map (fun e => e.value) =
      d.channel_distribution.map (fun p => p.2) ∧
    List.Perm ((processIntentData (some d)).map (fun e => e.value))
      (d.intent_distribution.map (fun p => p.2)) ∧
    List.Perm ((processConfidenceData (some d)).map (fun e => e.confidence))
      (d.average_confidence.map (fun p => jsRound (p.2 * 100))) ∧
    (∀ p ∈ processEntityData d, p ∈ d.entity_distribution) := by
  refine ⟨rfl, rfl, ?_, ?_, ?_, ?_⟩
  · simp [processChannelData]
  · have hperm := ((sortByDesc_perm (fun e : IntentEntry => (e.value : ℤ))
      (d.intent_distribution.map (fun p =>
        ({ name := displayIntentName p.1, value := p.2,
           percentage := intentPercentage p.2 d.total_interactions } :
          IntentEntry))))).map (fun e : IntentEntry => e.value)
    simpa [processIntentData, List.map_map, Function.comp] using hperm
  · have hperm := ((sortByDesc_perm (fun e : ConfidenceEntry => e.confidence)
      (d.average_confidence.map (fun p =>
        ({ intent := displayIntentName p.1, confidence := jsRound (p.2 * 100) } :
          ConfidenceEntry))))).map (fun e : ConfidenceEntry => e.confidence)
    simpa [processConfidenceData, List.map_map, Function.comp] using hperm
  · intro p hp
    have hs : p ∈ sortByDesc (fun p : String × ℕ => ((p.2 : ℤ)))
        d.entity_distribution := List.mem_of_mem_take hp
    exact ((sortByDesc_perm _ _).mem_iff).mp hs

/-- Witness for C6 at a concrete time range and payload. -/
theorem analytics_query_and_rollup_witness :
    (fetchAnalytics 7).days = 7 ∧
    (processChannelData (some sampleAnalytics)).map (fun e => e.value) =
      (sampleAnalytics.channel_distribution).map (fun p => p.2) :=
  ⟨(analytics_query_and_rollup 7 sampleAnalytics).1,
   (analytics_query_and_rollup 7 sampleAnalytics).2.2.1⟩

/-- C8: the session id, generated once at startup, is preserved by every
App transition, and every chat, voice, feedback and follow-up request the
instance posts carries exactly that session id. -/
theorem session_id_single_source (app : AppState) :
    (∀ o : FetchOutcome Unit,
      (checkSystemHealth app o).sessionId = app.sessionId) ∧
    (∀ t : Tab, (setActiveTab app t).sessionId = app.sessionId) ∧
    (∀ (st : ChatState) (now : ℕ) (o : FetchOutcome ChatResponse)
        (req : ChatRequest),
      (sendMessage st app.isConnected app.sessionId now o).2 = some req →
      req.session_id = app.sessionId) ∧
    (∀ (vs : VoiceState) (now k : ℕ) (o : FetchOutcome VoiceData)
        (req : VoiceRequest),
      (processRecording vs app.sessionId now k o).request = some req →
      req.session_id = app.sessionId) ∧
    (∀ (st : ChatState) (mid : String) (ft : FeedbackType)
        (o : FetchOutcome Unit),
      ((sendFeedback st app.sessionId mid ft o).2).session_id = app.sessionId) ∧
    (∀ (email name : String) (req : FollowUpRequest),
      sendFollowUp email name app.sessionId = some req →
      req.session_id = app.sessionId) := by
  refine ⟨?_, ?_, ?_, ?_, ?_, ?_⟩
  · intro o
    cases o <;> rfl
  · intro t
    rfl
  · intro st now o req h
    rcases sendMessage_request st app.isConnected app.sessionId now o with h0 | h0 <;>
      rw [h0] at h
    · exact absurd h (by simp)
    · rw [← Option.some.inj h]
  · intro vs now k o req h
    rcases processRecording_request vs app.sessionId now k o with h0 | h0 <;>
      rw [h0] at h
    · exact absurd h (by simp)
    · rw [← Option.some.inj h]
  · intro st mid ft o
    rfl
  · intro email name req h
    rcases sendFollowUp_cases email name app.sessionId with h0 | h0 <;>
      rw [h0] at h
    · exact absurd h (by simp)
    · rw [← Option.some.inj h]

/-- Witness for C8: the follow-up request posted under the startup session
id carries that session id. -/
theorem session_id_single_source_witness :
    ({ email := "Ada", name := "a@b.c",
       session_id := (initApp 0 ("r1")).sessionId,
       inquiry_type := "general" } : FollowUpRequest).session_id =
      (initApp 0 ("r1")).sessionId :=
  (session_id_single_source (initApp 0 ("r1"))).2.2.2.2.2 ("Ada") ("a@b.c")
    { email := "Ada", name := "a@b.c",
      session_id := (initApp 0 ("r1")).sessionId, inquiry_type := "general" }
    (by rfl)

/-- C9: with the daily dictionary present, `processDailyData` returns
exactly `timeRange` entries; entry `j` holds the day `timeRange - 1 - j`
days before today (so the entries run chronologically from
`timeRange - 1` days ago through today), with the count recorded for that
day in the dictionary, or 0 when the day is absent. -/
theorem daily_data_range (d : AnalyticsData) (n : ℕ) (today : ℤ)
    (hn : 1 ≤ n) :
    (processDailyData (some d) n today).length = n ∧
    (∀ j, j < n →
      (processDailyData (some d) n today)[j]? =
        some { date := today - ((n - 1 - j : ℕ) : ℤ),
               interactions :=
                 ((d.daily_interactions.lookup
                    (today - ((n - 1 - j : ℕ) : ℤ))).getD 0) }) := by
  refine ⟨dailyEntriesGo_length _ _ _, ?_⟩
  intro j hj
  exact dailyEntriesGo_getElem d.daily_interactions today n j hj

/-- Witness for C9 at range 3 ending on day 10: three entries, the oldest
holding day 8 with its recorded count 4. -/
theorem daily_data_range_witness :
    1 ≤ 3 ∧
    (processDailyData (some sampleAnalytics) 3 10).length = 3 ∧
    (processDailyData (some sampleAnalytics) 3 10)[0]? =
      some { date := 8, interactions := 4 } := by
  have h := daily_data_range sampleAnalytics 3 10 (by decide)
  refine ⟨by decide, h.1, ?_⟩
  rw [h.2 0 (by decide)]
  decide

/-- C10: with a non-zero total, every intent entry shows the percentage
`round((count / total) * 100)` for its recorded count, and the entries
are sorted descending by count; with a zero total every produced
percentage is non-finite (NaN or Infinity); and the chart keeps one entry
per intent of the distribution. -/
theorem intent_percentages_and_sort (d : AnalyticsData) :
    (d.total_interactions ≠ 0 →
      ∀ e ∈ processIntentData (some d),
        ∃ p ∈ d.intent_distribution,
          e.name = displayIntentName p.1 ∧
          e.value = p.2 ∧
          e.percentage =
            JSNum.num (round (((p.2 : ℚ) / (d.total_interactions : ℚ)) * 100))) ∧
    (processIntentData (some d)).Pairwise (fun a b => b.value ≤ a.value) ∧
    (d.total_interactions = 0 →
      ∀ e ∈ processIntentData (some d), e.percentage.isFinite = false) ∧
    (processIntentData (some d)).length = d.intent_distribution.length := by
  refine ⟨?_, ?_, ?_, ?_⟩
  · intro htot e he
    have heL : e ∈ d.intent_distribution.map (fun p =>
        ({ name := displayIntentName p.1, value := p.2,
           percentage := intentPercentage p.2 d.total_interactions } :
          IntentEntry)) :=
      ((sortByDesc_perm _ _).mem_iff).mp (by simpa [processIntentData] using he)
    rcases List.mem_map.mp heL with ⟨p, hp, rfl⟩
    refine ⟨p, hp, rfl, rfl, ?_⟩
    simp [intentPercentage, htot, jsRound_eq_round]
  · have hp := sortByDesc_pairwise (fun e : IntentEntry => (e.value : ℤ))
      (d.intent_distribution.map (fun p =>
        ({ name := displayIntentName p.1, value := p.2,
           percentage := intentPercentage p.2 d.total_interactions } :
          IntentEntry)))
    have hp2 := hp.imp (fun h => by exact_mod_cast h)
    simpa [processIntentData] using hp2
  · intro htot e he
    have heL : e ∈ d.intent_distribution.map (fun p =>
        ({ name := displayIntentName p.1, value := p.2,
           percentage := intentPercentage p.2 d.total_interactions } :
          IntentEntry)) :=
      ((sortByDesc_perm _ _).mem_iff).mp (by simpa [processIntentData] using he)
    rcases List.mem_map.mp heL with ⟨p, hp, rfl⟩
    by_cases hc : p.2 = 0 <;>
      simp [intentPercentage, htot, hc, JSNum.isFinite]
  · simpa [processIntentData] using
      ((sortByDesc_perm _ _).length_eq.trans (List.length_map _ _))

/-- Witness for C10 at a concrete payload with total 4: the chart is
sorted descending by count and keeps both intents. -/
theorem intent_percentages_and_sort_witness :
    (processIntentData (some sampleAnalytics)).Pairwise
      (fun a b => b.value ≤ a.value) ∧
    (processIntentData (some sampleAnalytics)).length =
      (sampleAnalytics.intent_distribution).length :=
  ⟨(intent_percentages_and_sort sampleAnalytics).2.1,
   (intent_percentages_and_sort sampleAnalytics).2.2.2⟩
